import Mathlib

/-!
Verification of the quality-gate reporting pipeline of `smart_generetor_cv`.

The development shallowly embeds the report pipeline scripts
(`tools/analyze_code.py`, `tools/send_report.py`, `tools/send_email.py`).
External effects (git subprocesses, HTTP requests to the generative-AI
endpoint, SMTP sends, filesystem reads) are passed in as explicit
parameters describing the outcome the external world would produce, so
every function of the embedding is a pure, executable Lean function whose
control flow mirrors the Python source line by line.

Python string primitives that the scripts use (`str.strip`, `str.replace`,
slicing) are modelled on the underlying character lists so that concrete
runs reduce inside the kernel.
-/

namespace SmartCV

/-- Model of Python `str.strip()`: drop whitespace from both ends.
(Python strips a slightly larger Unicode whitespace class; the scripts
only ever meet ASCII whitespace here.) -/
def pyStrip (s : String) : String :=
  ⟨((s.data.dropWhile Char.isWhitespace).reverse.dropWhile Char.isWhitespace).reverse⟩

/-- Fuel-driven worker for `pyReplace`; fuel is the length of the scanned
list, which suffices because each step consumes at least one character. -/
def replaceFuel (pat repl : List Char) : Nat → List Char → List Char
  | _, [] => []
  | 0, l => l
  | n + 1, c :: cs =>
    if pat.isPrefixOf (c :: cs) && !pat.isEmpty then
      repl ++ replaceFuel pat repl n ((c :: cs).drop pat.length)
    else
      c :: replaceFuel pat repl n cs

/-- Model of Python `s.replace(pat, repl)`: replace every non-overlapping
occurrence of `pat`, scanning left to right, never rescanning a
replacement.  (For an empty pattern Python intersperses `repl`; the
scripts only use the non-empty patterns given by the fenced-code markers,
for which this model is exact.) -/
def pyReplace (s pat repl : String) : String :=
  ⟨replaceFuel pat.data repl.data s.data.length s.data⟩

/-- Split a character list at every newline character. -/
def splitOnNewline : List Char → List (List Char)
  | [] => [[]]
  | c :: cs =>
    if c = '\n' then [] :: splitOnNewline cs
    else
      match splitOnNewline cs with
      | [] => [[c]]
      | l :: ls => (c :: l) :: ls

/-- Model of Python `str.splitlines()` as used by `get_changed_files`.
(Python also splits at carriage returns and drops a trailing empty piece;
the caller filters out blank-after-strip pieces immediately, which makes
the two models agree on every newline-terminated git output.) -/
def pySplitlines (s : String) : List String :=
  (splitOnNewline s.data).map (fun l => ⟨l⟩)

/-- Model of Python slicing `s[:n]`: the first `n` characters of `s` (all
of `s` when it is shorter). -/
def pyTake (s : String) (n : Nat) : String := ⟨s.data.take n⟩

/-- Python truthiness of an optional string: `None` and the empty string
are falsy, every other string is truthy. -/
def pyTruthy : Option String → Bool
  | none => false
  | some s => if s = "" then false else true

/-- Python falsiness of an optional string. -/
def pyFalsy (o : Option String) : Bool := !(pyTruthy o)

/-- Python `a or b` on optional strings: the first operand when truthy,
otherwise the second operand unchanged. -/
def pyOr (a b : Option String) : Option String := if pyTruthy a then a else b

namespace AnalyzeCode

/-- Subject line chosen by `main` when `status == "success"`. -/
def successSubject : String := "Success: Smart CV Generator — Code validé"

/-- Subject line chosen by `main` for any other status. -/
def failureSubject : String := "Failure: Smart CV Generator — Erreurs détectées"

/-- Placeholder returned by `read_analysis_report` when the log file is
absent. -/
def noReportWarning : String := "Warning: Aucun rapport d’analyse trouvé (tools/.last_analysis.log)."

/-- Text returned by `read_analysis_report` when reading the log file
raises. -/
def readErrWarning (e : String) : String := "Warning: Erreur lecture rapport : " ++ e

/-- Text returned by `get_git_diff` when a git invocation raises. -/
def gitDiffWarning (e : String) : String := "Warning: Erreur git diff : " ++ e

/-- Marker returned by `get_git_diff` when both diffs are empty. -/
def noChangesMarker : String := "Aucun changement détecté."

/-- Placeholder returned by `ask_gemini_for_analysis` when no API key is
configured. -/
def keyMissingPh : String := "<p style=\x27color: orange;\x27>Warning: GEMINI_API_KEY manquante → IA désactivée.</p>"

/-- Placeholder returned when a model answers with an empty text field. -/
def emptyRespPh : String := "<p>Warning: Réponse vide de l’IA.</p>"

/-- Placeholder returned after the whole candidate list is exhausted. -/
def allFailedPh : String := "<p style=\x27color: red;\x27>Erreur: Modèles Gemini KO. Vérifie ta clé sur <a href=\x27https://aistudio.google.com/app/apikey\x27>AI Studio</a>.</p>"

/-- The prioritized model-candidate list of `ask_gemini_for_analysis`. -/
def MODELS : List String := ["gemini-2.5-flash", "gemini-2.5-flash-lite", "gemini-2.0-flash"]

/-- Embedding of `read_analysis_report`.  The filesystem is summarized by
whether the log file exists and by the outcome of reading it (`Except.error`
standing for a raised exception). -/
def read_analysis_report (reportExists : Bool) (readRes : Except String String) : String :=
  if !reportExists then noReportWarning
  else
    match readRes with
    | Except.ok s => s
    | Except.error e => readErrWarning e

/-- Embedding of `get_git_diff`.  The two subprocess invocations
(`git diff --cached`, then `git diff HEAD~1`) are summarized by their
outcomes: `Except.ok` carries the captured stdout, `Except.error` stands
for a raised exception (caught by the surrounding handler). -/
def get_git_diff (staged headDiff : Except String String) : String :=
  match staged with
  | Except.error e => gitDiffWarning e
  | Except.ok s1 =>
    if pyStrip s1 ≠ "" then s1
    else
      match headDiff with
      | Except.error e => gitDiffWarning e
      | Except.ok s2 => if pyStrip s2 = "" then noChangesMarker else pyStrip s2

/-- Embedding of `get_changed_files`: split the captured stdout into
lines and keep those that are non-blank after stripping; a raised
exception yields the empty list. -/
def get_changed_files (res : Except String String) : List String :=
  match res with
  | Except.error _ => []
  | Except.ok out => (pySplitlines out).filter (fun f => pyStrip f ≠ "")

/-- Leading text of the prompt f-string, up to the changed-file list. -/
def promptIntro : String := "\nTu es un expert en revue de code Python. Génère un **rapport HTML complet** :\n\n**Fichiers modifiés** : "

/-- Prompt text between the changed-file list and the truncated diff. -/
def promptDiffHeader : String := "\n**Diff Git** :\n"

/-- Prompt text between the truncated diff and the report. -/
def promptReportHeader : String := "\n**Rapport d’analyse** :\n"

/-- Trailing styling instructions of the prompt f-string. -/
def promptStyle : String := "\n\n**Style** :\n- Titre principal en <h1> (vert si succès, rouge si échec)\n- Fond #f9f9fb\n- Boîte blanche centrée avec ombre\n- Code en <pre><code>\n- Suggestions en bleu\n- Ton professionnel, clair, actionnable\n"

/-- Embedding of the interpolation `', '.join(changed_files) or 'Aucun'`. -/
def joinedFiles (files : List String) : String :=
  if String.intercalate (", ") files = "" then ("Aucun")
  else String.intercalate (", ") files

/-- Embedding of the prompt f-string built inside
`ask_gemini_for_analysis`: the interpolations are the joined changed-file
list, the diff sliced to its first 3000 characters, and the report. -/
def mkPrompt (report diff : String) (files : List String) : String :=
  promptIntro ++ joinedFiles files ++ promptDiffHeader ++ pyTake diff 3000 ++
    promptReportHeader ++ report ++ promptStyle

/-- Outcome of one HTTP attempt against a model candidate, as seen by the
`try` body: an `HTTPError` with a status code raised by
`raise_for_status`, any other raised exception (network fault, malformed
JSON, missing library), or a completed 2xx response whose chained lookups
produced the given (possibly empty) text field. -/
inductive ApiResult where
  | httpError (status : Nat)
  | exn (msg : String)
  | ok (text : String)
deriving DecidableEq

/-- Fence stripping applied to a parsed text field:
`text.replace("```html", "").replace("```", "").strip()`. -/
def stripFences (t : String) : String :=
  pyStrip (pyReplace (pyReplace t ("```html") ("")) ("```") (""))

/-- Embedding of `return html or "<p>Warning: Réponse vide de l’IA.</p>"`. -/
def finishHtml (t : String) : String :=
  if stripFences t = "" then emptyRespPh else stripFences t

/-- Embedding of the model-candidate loop of `ask_gemini_for_analysis`.
Returns the result — `Except.error s` standing for an uncaught exception
(the re-raised non-404 `HTTPError` with status `s`) escaping the function —
paired with the ordered list of candidates actually attempted. -/
def askLoop (api : String → String → ApiResult) (prompt : String) :
    List String → Except Nat String × List String
  | [] => (Except.ok allFailedPh, [])
  | m :: rest =>
    match api m prompt with
    | ApiResult.ok t => (Except.ok (finishHtml t), [m])
    | ApiResult.exn _ =>
      ((askLoop api prompt rest).1, m :: (askLoop api prompt rest).2)
    | ApiResult.httpError s =>
      if s = 404 then ((askLoop api prompt rest).1, m :: (askLoop api prompt rest).2)
      else (Except.error s, [m])

/-- Embedding of `ask_gemini_for_analysis`.  The network is summarized by
`api`, mapping a model name and a prompt to the outcome of that attempt.
The second component records which candidates were attempted (hence how
many HTTP requests were issued). -/
def ask_gemini_for_analysis (apiKey : Option String)
    (api : String → String → ApiResult) (report diff : String)
    (files : List String) : Except Nat String × List String :=
  if pyFalsy apiKey then (Except.ok keyMissingPh, [])
  else askLoop api (mkPrompt report diff files) MODELS

/-- Outcome of one notification attempt, abstracting the console logging
of `send_email`:  skipped because e-mail is disabled, skipped because no
recipient resolved, sent to a recipient, or an SMTP fault caught and
logged for a recipient. -/
inductive EmailAction where
  | skippedDisabled
  | skippedNoRecipient
  | sent (recipient : String)
  | failedLogged (recipient : String) (err : String)
deriving DecidableEq

/-- Extract the recipient an `EmailAction` addressed, if any. -/
def recipientOf : EmailAction → Option String
  | EmailAction.sent r => some r
  | EmailAction.failedLogged r _ => some r
  | _ => none

/-- Embedding of the module-level flag
`SEND_EMAIL_ENABLED = bool(SENDER_EMAIL and GEMINI_APP_PASSWORD)`. -/
def sendEmailEnabled (sender password : Option String) : Bool :=
  pyTruthy sender && pyTruthy password

/-- Embedding of `send_email` from `tools/analyze_code.py` (identical in
`tools/send_report.py`).  The git config read is summarized by `gitEmail`
and the SMTP session by `smtp`, mapping a recipient to the outcome of the
send (`Except.error` standing for a caught exception). -/
def send_email (sender password gitEmail : Option String)
    (smtp : String → Except String Unit) : EmailAction :=
  if !sendEmailEnabled sender password then EmailAction.skippedDisabled
  else
    match pyOr gitEmail sender with
    | none => EmailAction.skippedNoRecipient
    | some r =>
      if r = "" then EmailAction.skippedNoRecipient
      else
        match smtp r with
        | Except.ok _ => EmailAction.sent r
        | Except.error e => EmailAction.failedLogged r e

/-- Embedding of the subject selection in `main`: the fixed validated
subject when the status argument equals `success`, the fixed
errors-detected subject otherwise. -/
def subjectOfStatus (status : String) : String :=
  if status = "success" then successSubject else failureSubject

/-- The external world of one `main` run: command-line arguments after the
script name, filesystem state of the persisted report, outcomes of the
three git subprocesses, the configured credentials, the AI endpoint, the
committer e-mail from git config, and the SMTP session. -/
structure MainEnv where
  argv : List String
  reportExists : Bool
  reportRead : Except String String
  stagedDiff : Except String String
  headDiff : Except String String
  changedRaw : Except String String
  apiKey : Option String
  api : String → String → ApiResult
  sender : Option String
  password : Option String
  gitEmail : Option String
  smtp : String → Except String Unit

/-- Observable result of a `main` run that terminated normally. -/
structure MainResult where
  status : String
  subject : String
  html : String
  attempts : List String
  email : EmailAction
deriving DecidableEq

/-- Embedding of `main` from `tools/analyze_code.py`:  read the status
argument (default `success`), gather report, diff and changed files,
generate the narrative, derive the subject from the status argument, and
dispatch the e-mail.  `Except.error s` models the uncaught exception
re-raised out of `ask_gemini_for_analysis` aborting the run. -/
def main (e : MainEnv) : Except Nat MainResult :=
  match ask_gemini_for_analysis e.apiKey e.api
      (read_analysis_report e.reportExists e.reportRead)
      (get_git_diff e.stagedDiff e.headDiff)
      (get_changed_files e.changedRaw) with
  | (Except.error s, _) => Except.error s
  | (Except.ok html, attempts) =>
    Except.ok
      ⟨e.argv.head?.getD ("success"),
       subjectOfStatus (e.argv.head?.getD ("success")),
       html, attempts,
       send_email e.sender e.password e.gitEmail e.smtp⟩

end AnalyzeCode

namespace SendEmailPy

/-- Result of importing the `tools/send_email.py` module: the top-level
credential check either terminates the process via `sys.exit(1)` or lets
the script proceed. -/
inductive ScriptInit where
  | exited (code : Nat)
  | proceeded
deriving DecidableEq

/-- Embedding of the module-level check of `tools/send_email.py`:
`if not SENDER_EMAIL or not GEMINI_APP_PASSWORD: ... sys.exit(1)`. -/
def scriptInit (sender password : Option String) : ScriptInit :=
  if pyFalsy sender || pyFalsy password then ScriptInit.exited 1
  else ScriptInit.proceeded

/-- Embedding of `send_email` from `tools/send_email.py`: the recipient is
solely the committer e-mail from git config (`None` when absent or blank);
when it is falsy the send is cancelled, otherwise the SMTP outcome is
either a successful send or a caught, logged exception. -/
def send_email (gitEmail : Option String) (_sender _password : String)
    (smtp : String → Except String Unit) : AnalyzeCode.EmailAction :=
  match gitEmail with
  | none => AnalyzeCode.EmailAction.skippedNoRecipient
  | some r =>
    if r = "" then AnalyzeCode.EmailAction.skippedNoRecipient
    else
      match smtp r with
      | Except.ok _ => AnalyzeCode.EmailAction.sent r
      | Except.error e => AnalyzeCode.EmailAction.failedLogged r e

end SendEmailPy

namespace SpecModel

/-- Modelled from the spec: result of running one analysis tool, §3 of the
design.  The tool-runner and aggregator script that produces these (the
analyzer generating `tools/.last_analysis.log` and exiting 0 or 1) is not
among the repository files under verification; only its consumer
(`read_analysis_report`) and the hook-side carrier of its verdict (the
status argument of `main`) are. -/
structure ToolOutcome where
  success : Bool
  detail : String

/-- Modelled from the spec: `RunOutcome.success` is true exactly when
every `ToolOutcome` succeeded (§3 invariant). -/
def runOutcomeSuccess (outs : List ToolOutcome) : Bool :=
  outs.all (fun o => o.success)

/-- Modelled from the spec: process exit code 0 when every tool outcome
succeeded, 1 otherwise (§6). -/
def pipelineExitCode (outs : List ToolOutcome) : Nat :=
  if runOutcomeSuccess outs then 0 else 1

/-- Modelled from the spec: the hook passes the aggregate verdict to the
reporting script as its status argument (`success` or `failure`), from
which `main` derives the subject. -/
def statusArgOf (outs : List ToolOutcome) : String :=
  if runOutcomeSuccess outs then ("success") else ("failure")

end SpecModel

/-! Concrete environments used to instantiate the theorems below. -/

/-- An AI endpoint that always answers with the same non-empty text. -/
def apiOk : String → String → AnalyzeCode.ApiResult :=
  fun _ _ => AnalyzeCode.ApiResult.ok ("x")

/-- An AI endpoint that answers every request with an HTTP 500 error. -/
def api500 : String → String → AnalyzeCode.ApiResult :=
  fun _ _ => AnalyzeCode.ApiResult.httpError 500

/-- An AI endpoint where the first candidate answers 2xx with an empty
text field and every other candidate would answer with usable text. -/
def apiEmptyThenGood : String → String → AnalyzeCode.ApiResult :=
  fun m _ =>
    if m = ("gemini-2.5-flash") then AnalyzeCode.ApiResult.ok ("")
    else AnalyzeCode.ApiResult.ok ("recovered")

/-- An AI endpoint where the first candidate is unknown (404) and the
others answer with usable text. -/
def api404First : String → String → AnalyzeCode.ApiResult :=
  fun m _ =>
    if m = ("gemini-2.5-flash") then AnalyzeCode.ApiResult.httpError 404
    else AnalyzeCode.ApiResult.ok ("t")

/-- An AI endpoint where every request raises a non-HTTPError exception
(for instance a network fault). -/
def apiExn : String → String → AnalyzeCode.ApiResult :=
  fun _ _ => AnalyzeCode.ApiResult.exn ("net down")

/-- An AI endpoint where every candidate is unknown (HTTP 404). -/
def apiAll404 : String → String → AnalyzeCode.ApiResult :=
  fun _ _ => AnalyzeCode.ApiResult.httpError 404

/-- An SMTP session whose sends always succeed. -/
def smtpOk : String → Except String Unit := fun _ => Except.ok ()

/-- A concrete run environment: no CLI arguments, no persisted report, no
git changes, and no credentials configured. -/
def envW : AnalyzeCode.MainEnv :=
  ⟨[], false, Except.error (""), Except.ok (""), Except.ok (""), Except.ok (""),
   none, apiOk, none, none, none, smtpOk⟩

/-- The observable result of running `main` in `envW`. -/
def resW : AnalyzeCode.MainResult :=
  ⟨("success"), AnalyzeCode.successSubject, AnalyzeCode.keyMissingPh, [],
   AnalyzeCode.EmailAction.skippedDisabled⟩

/-! Theorems settling the claims. -/

/-- Claim C1: the run outcome equals the conjunction of all tool-outcome
success flags, the process exit code is 0 exactly when every tool outcome
succeeded and 1 otherwise, and the subject chosen in `main` (validated
versus errors detected) is derived from this aggregate via the status
argument carrying the verdict.  The aggregator side is modelled from the
spec because the analyzer script is not among the files under
verification; the subject selection is the embedding of `main`. -/
theorem claim1_run_outcome_exit_subject (outs : List SpecModel.ToolOutcome) :
    (SpecModel.runOutcomeSuccess outs = true ↔ ∀ o ∈ outs, o.success = true) ∧
    (SpecModel.pipelineExitCode outs = 0 ↔ ∀ o ∈ outs, o.success = true) ∧
    (SpecModel.pipelineExitCode outs = 1 ↔ ¬ ∀ o ∈ outs, o.success = true) ∧
    (AnalyzeCode.subjectOfStatus (SpecModel.statusArgOf outs) = AnalyzeCode.successSubject ↔
      SpecModel.runOutcomeSuccess outs = true) ∧
    (AnalyzeCode.subjectOfStatus (SpecModel.statusArgOf outs) = AnalyzeCode.failureSubject ↔
      SpecModel.runOutcomeSuccess outs = false) := by
  have hall : SpecModel.runOutcomeSuccess outs = true ↔ ∀ o ∈ outs, o.success = true := by
    simp [SpecModel.runOutcomeSuccess, List.all_eq_true]
  refine ⟨hall, ?_, ?_, ?_, ?_⟩
  · rw [← hall]
    cases h : SpecModel.runOutcomeSuccess outs <;> simp [SpecModel.pipelineExitCode, h]
  · rw [← hall]
    cases h : SpecModel.runOutcomeSuccess outs <;> simp [SpecModel.pipelineExitCode, h]
  · cases h : SpecModel.runOutcomeSuccess outs <;>
      simp [SpecModel.statusArgOf, AnalyzeCode.subjectOfStatus, h]
    all_goals decide
  · cases h : SpecModel.runOutcomeSuccess outs <;>
      simp [SpecModel.statusArgOf, AnalyzeCode.subjectOfStatus, h]
    all_goals decide

/-- Claim C4: with no AI credential configured (environment variable
absent or empty), the narrative generator returns the degraded-mode
warning placeholder immediately and attempts no candidate, hence performs
no network call at all. -/
theorem claim4_no_credential_no_network (apiKey : Option String)
    (api : String → String → AnalyzeCode.ApiResult) (report diff : String)
    (files : List String) (h : apiKey = none ∨ apiKey = some ("")) :
    AnalyzeCode.ask_gemini_for_analysis apiKey api report diff files
      = (Except.ok AnalyzeCode.keyMissingPh, []) := by
  rcases h with h | h <;> subst h <;> rfl

/-- Witness for claim C4 at a concrete input. -/
theorem claim4_witness :
    AnalyzeCode.ask_gemini_for_analysis none apiOk ("report") ("diff") []
      = (Except.ok AnalyzeCode.keyMissingPh, []) :=
  claim4_no_credential_no_network none apiOk ("report") ("diff") [] (Or.inl rfl)

/-- Claim C7: the git context diff is the staged diff when non-blank,
else the diff against the previous revision when non-blank, else the
literal no-changes marker; a fault raised during either attempt becomes
an explanatory warning text instead of propagating. -/
theorem claim7_git_diff_fallback :
    (∀ s1 hd, pyStrip s1 ≠ "" → AnalyzeCode.get_git_diff (Except.ok s1) hd = s1) ∧
    (∀ s1 s2, pyStrip s1 = "" → pyStrip s2 ≠ "" →
      AnalyzeCode.get_git_diff (Except.ok s1) (Except.ok s2) = pyStrip s2) ∧
    (∀ s1 s2, pyStrip s1 = "" → pyStrip s2 = "" →
      AnalyzeCode.get_git_diff (Except.ok s1) (Except.ok s2) = AnalyzeCode.noChangesMarker) ∧
    (∀ e hd, AnalyzeCode.get_git_diff (Except.error e) hd = AnalyzeCode.gitDiffWarning e) ∧
    (∀ s1 e, pyStrip s1 = "" →
      AnalyzeCode.get_git_diff (Except.ok s1) (Except.error e) = AnalyzeCode.gitDiffWarning e) := by
  refine ⟨?_, ?_, ?_, ?_, ?_⟩ <;>
    intros <;>
    simp_all [AnalyzeCode.get_git_diff]

/-- Witness for claim C7 at concrete inputs: a non-blank staged diff wins,
blank diffs fall back to the marker, a git fault becomes warning text. -/
theorem claim7_witness :
    AnalyzeCode.get_git_diff (Except.ok ("diff --git\n")) (Except.ok ("")) = ("diff --git\n") ∧
    AnalyzeCode.get_git_diff (Except.ok ("")) (Except.ok (" \n")) = AnalyzeCode.noChangesMarker ∧
    AnalyzeCode.get_git_diff (Except.ok ("")) (Except.error ("boom"))
      = AnalyzeCode.gitDiffWarning ("boom") :=
  ⟨claim7_git_diff_fallback.1 ("diff --git\n") (Except.ok ("")) (by decide),
   claim7_git_diff_fallback.2.2.1 ("") (" \n") (by decide) (by decide),
   claim7_git_diff_fallback.2.2.2.2 ("") ("boom") (by decide)⟩

/-- Claim C8: the prompt contains, in order, the changed-file list, the
diff truncated to exactly its first 3000 characters, the full report
text, and the explicit HTML styling instructions (colored heading, boxed
layout, code blocks, suggestions). -/
theorem claim8_prompt_contents (report diff : String) (files : List String) :
    (∃ a b c, AnalyzeCode.mkPrompt report diff files
        = a ++ AnalyzeCode.joinedFiles files ++ b ++ pyTake diff 3000 ++ c
            ++ report ++ AnalyzeCode.promptStyle) ∧
    (pyTake diff 3000).data = diff.data.take 3000 ∧
    (∃ u v, AnalyzeCode.promptStyle
      = u ++ ("- Titre principal en <h1> (vert si succès, rouge si échec)") ++ v) ∧
    (∃ u v, AnalyzeCode.promptStyle = u ++ ("- Boîte blanche centrée avec ombre") ++ v) ∧
    (∃ u v, AnalyzeCode.promptStyle = u ++ ("- Code en <pre><code>") ++ v) ∧
    (∃ u v, AnalyzeCode.promptStyle = u ++ ("- Suggestions en bleu") ++ v) := by
  refine ⟨⟨AnalyzeCode.promptIntro, AnalyzeCode.promptDiffHeader,
      AnalyzeCode.promptReportHeader, rfl⟩, rfl,
    ⟨("\n\n**Style** :\n"),
     ("\n- Fond #f9f9fb\n- Boîte blanche centrée avec ombre\n- Code en <pre><code>\n- Suggestions en bleu\n- Ton professionnel, clair, actionnable\n"),
     rfl⟩,
    ⟨("\n\n**Style** :\n- Titre principal en <h1> (vert si succès, rouge si échec)\n- Fond #f9f9fb\n"),
     ("\n- Code en <pre><code>\n- Suggestions en bleu\n- Ton professionnel, clair, actionnable\n"),
     rfl⟩,
    ⟨("\n\n**Style** :\n- Titre principal en <h1> (vert si succès, rouge si échec)\n- Fond #f9f9fb\n- Boîte blanche centrée avec ombre\n"),
     ("\n- Suggestions en bleu\n- Ton professionnel, clair, actionnable\n"),
     rfl⟩,
    ⟨("\n\n**Style** :\n- Titre principal en <h1> (vert si succès, rouge si échec)\n- Fond #f9f9fb\n- Boîte blanche centrée avec ombre\n- Code en <pre><code>\n"),
     ("\n- Ton professionnel, clair, actionnable\n"),
     rfl⟩⟩

/-- Unfolding equation of the candidate loop on a non-empty candidate
list, shared by the theorems below. -/
theorem askLoop_cons (api : String → String → AnalyzeCode.ApiResult)
    (prompt m : String) (rest : List String) :
    AnalyzeCode.askLoop api prompt (m :: rest)
      = match api m prompt with
        | AnalyzeCode.ApiResult.ok t => (Except.ok (AnalyzeCode.finishHtml t), [m])
        | AnalyzeCode.ApiResult.exn _ =>
          ((AnalyzeCode.askLoop api prompt rest).1,
            m :: (AnalyzeCode.askLoop api prompt rest).2)
        | AnalyzeCode.ApiResult.httpError s =>
          if s = 404 then
            ((AnalyzeCode.askLoop api prompt rest).1,
              m :: (AnalyzeCode.askLoop api prompt rest).2)
          else (Except.error s, [m]) := rfl

/-- Claim C2 counterexample: a non-404 HTTP error (here a 500 on the
first candidate) is re-raised by the `else: raise` branch and escapes the
narrative generator as an uncaught exception (`Except.error 500`), with no
further candidate attempted — refuting that every non-404 failure merely
logs a warning and proceeds, and that no failure ever propagates. -/
theorem claim2_counterexample :
    AnalyzeCode.ask_gemini_for_analysis (some ("key")) api500 ("report") ("diff") []
      = (Except.error 500, [("gemini-2.5-flash")]) := rfl

/-- Claim C2 as amended: an HTTP 404 moves to the next candidate, any
non-HTTPError failure (network fault, malformed response) logs a warning
and moves to the next candidate, but a non-404 HTTP error is re-raised
and propagates out of the candidate loop. -/
theorem claim2_amended :
    (∀ api prompt m rest, api m prompt = AnalyzeCode.ApiResult.httpError 404 →
      AnalyzeCode.askLoop api prompt (m :: rest)
        = ((AnalyzeCode.askLoop api prompt rest).1,
            m :: (AnalyzeCode.askLoop api prompt rest).2)) ∧
    (∀ api prompt m rest msg, api m prompt = AnalyzeCode.ApiResult.exn msg →
      AnalyzeCode.askLoop api prompt (m :: rest)
        = ((AnalyzeCode.askLoop api prompt rest).1,
            m :: (AnalyzeCode.askLoop api prompt rest).2)) ∧
    (∀ api prompt m rest s, api m prompt = AnalyzeCode.ApiResult.httpError s → s ≠ 404 →
      AnalyzeCode.askLoop api prompt (m :: rest) = (Except.error s, [m])) := by
  refine ⟨?_, ?_, ?_⟩
  · intro api prompt m rest h
    rw [askLoop_cons, h]
    rfl
  · intro api prompt m rest msg h
    rw [askLoop_cons, h]
  · intro api prompt m rest s h hs
    rw [askLoop_cons, h]
    simp [hs]

/-- Witness for the amended claim C2 at concrete inputs. -/
theorem claim2_amended_witness :
    AnalyzeCode.askLoop api404First ("p") (("gemini-2.5-flash") :: [("m2")])
      = ((AnalyzeCode.askLoop api404First ("p") [("m2")]).1,
          ("gemini-2.5-flash") :: (AnalyzeCode.askLoop api404First ("p") [("m2")]).2) ∧
    AnalyzeCode.askLoop apiExn ("p") (("m") :: [])
      = ((AnalyzeCode.askLoop apiExn ("p") []).1,
          ("m") :: (AnalyzeCode.askLoop apiExn ("p") []).2) ∧
    AnalyzeCode.askLoop api500 ("p") (("m") :: []) = (Except.error 500, [("m")]) :=
  ⟨claim2_amended.1 api404First ("p") ("gemini-2.5-flash") [("m2")] rfl,
   claim2_amended.2.1 apiExn ("p") ("m") [] ("net down") rfl,
   claim2_amended.2.2 api500 ("p") ("m") [] 500 rfl (by decide)⟩

/-- Claim C3 counterexample: when the first candidate completes its
request but its parsed text field is empty, the generator returns the
empty-response placeholder at once — the attempt list stops at the first
candidate even though the next candidate would have returned usable
text — refuting that an empty text field makes the loop move on. -/
theorem claim3_counterexample :
    AnalyzeCode.ask_gemini_for_analysis (some ("key")) apiEmptyThenGood ("report") ("diff") []
        = (Except.ok AnalyzeCode.emptyRespPh, [("gemini-2.5-flash")]) ∧
      AnalyzeCode.emptyRespPh ≠ AnalyzeCode.finishHtml ("recovered") ∧
      AnalyzeCode.emptyRespPh ≠ AnalyzeCode.allFailedPh :=
  ⟨rfl, by decide, by decide⟩

/-- Claim C3 as amended: the first candidate whose request completes wins
unconditionally — its fence-stripped text when non-empty, the
empty-response placeholder when empty; the exhaustion placeholder appears
only when every candidate fails softly (404 or a non-HTTPError
exception). -/
theorem claim3_amended :
    (∀ api prompt m rest t, api m prompt = AnalyzeCode.ApiResult.ok t →
      AnalyzeCode.askLoop api prompt (m :: rest)
        = (Except.ok (AnalyzeCode.finishHtml t), [m])) ∧
    (∀ t, AnalyzeCode.stripFences t ≠ "" →
      AnalyzeCode.finishHtml t = AnalyzeCode.stripFences t) ∧
    (∀ t, AnalyzeCode.stripFences t = "" →
      AnalyzeCode.finishHtml t = AnalyzeCode.emptyRespPh) ∧
    (∀ api prompt models,
      (∀ m ∈ models, api m prompt = AnalyzeCode.ApiResult.httpError 404 ∨
        ∃ msg, api m prompt = AnalyzeCode.ApiResult.exn msg) →
      AnalyzeCode.askLoop api prompt models = (Except.ok AnalyzeCode.allFailedPh, models)) := by
  refine ⟨?_, ?_, ?_, ?_⟩
  · intro api prompt m rest t h
    rw [askLoop_cons, h]
  · intro t h
    simp [AnalyzeCode.finishHtml, h]
  · intro t h
    simp [AnalyzeCode.finishHtml, h]
  · intro api prompt models
    induction models with
    | nil => intro _; rfl
    | cons m rest ih =>
      intro h
      have hrest := ih (fun x hx => h x (List.mem_cons_of_mem _ hx))
      rcases h m (by simp) with hm | ⟨msg, hm⟩
      · rw [askLoop_cons, hm]
        simp [hrest]
      · rw [askLoop_cons, hm]
        simp [hrest]

/-- Witness for the amended claim C3 at concrete inputs. -/
theorem claim3_amended_witness :
    AnalyzeCode.askLoop apiOk ("p") (("m") :: [("m2")])
      = (Except.ok (AnalyzeCode.finishHtml ("x")), [("m")]) ∧
    AnalyzeCode.finishHtml ("```html\nok```") = AnalyzeCode.stripFences ("```html\nok```") ∧
    AnalyzeCode.finishHtml ("```") = AnalyzeCode.emptyRespPh ∧
    AnalyzeCode.askLoop apiAll404 ("p") [("a"), ("b")]
      = (Except.ok AnalyzeCode.allFailedPh, [("a"), ("b")]) :=
  ⟨claim3_amended.1 apiOk ("p") ("m") [("m2")] ("x") rfl,
   claim3_amended.2.1 ("```html\nok```") (by decide),
   claim3_amended.2.2.1 ("```") (by decide),
   claim3_amended.2.2.2 apiAll404 ("p") [("a"), ("b")] (fun m _ => Or.inl rfl)⟩

/-- Claim C5 counterexample: with SMTP credentials missing, the
standalone notification script `tools/send_email.py` does not skip and
continue — its module-level check terminates the process with exit code 1,
aborting the run. -/
theorem claim5_counterexample :
    SendEmailPy.scriptInit none none = SendEmailPy.ScriptInit.exited 1 ∧
    SendEmailPy.scriptInit (some ("s@example.com")) none = SendEmailPy.ScriptInit.exited 1 :=
  ⟨rfl, rfl⟩

/-- Claim C5 as amended: in the pipeline scripts, missing SMTP
credentials make `send_email` log and return without sending or raising;
the standalone `send_email.py` script instead prints and exits with code
1 at import time. -/
theorem claim5_amended :
    (∀ sender password gitEmail smtp,
      pyFalsy sender = true ∨ pyFalsy password = true →
      AnalyzeCode.send_email sender password gitEmail smtp
        = AnalyzeCode.EmailAction.skippedDisabled) ∧
    (∀ sender password, pyFalsy sender = true ∨ pyFalsy password = true →
      SendEmailPy.scriptInit sender password = SendEmailPy.ScriptInit.exited 1) := by
  constructor
  · intro sender password gitEmail smtp h
    have hd : AnalyzeCode.sendEmailEnabled sender password = false := by
      rcases h with h | h <;> simp [pyFalsy] at h <;>
        simp [AnalyzeCode.sendEmailEnabled, h]
    simp [AnalyzeCode.send_email, hd]
  · intro sender password h
    rcases h with h | h <;> simp [SendEmailPy.scriptInit, h]

/-- Witness for the amended claim C5 at concrete inputs. -/
theorem claim5_witness :
    AnalyzeCode.send_email none (some ("pw")) (some ("dev@example.com")) smtpOk
      = AnalyzeCode.EmailAction.skippedDisabled ∧
    SendEmailPy.scriptInit (some ("s@example.com")) (some (""))
      = SendEmailPy.ScriptInit.exited 1 :=
  ⟨claim5_amended.1 none (some ("pw")) (some ("dev@example.com")) smtpOk (Or.inl (by decide)),
   claim5_amended.2 (some ("s@example.com")) (some ("")) (Or.inr (by decide))⟩

/-- Claim C6 counterexample: with a configured sender address and no
committer e-mail in git config, `tools/send_email.py` skips the send
instead of falling back to the sender — refuting the claimed resolution
rule for every send. -/
theorem claim6_counterexample :
    SendEmailPy.send_email none ("sender@example.com") ("pw") smtpOk
        = AnalyzeCode.EmailAction.skippedNoRecipient ∧
      AnalyzeCode.EmailAction.skippedNoRecipient
        ≠ AnalyzeCode.EmailAction.sent ("sender@example.com") :=
  ⟨rfl, by decide⟩

/-- Claim C6 as amended: in `analyze_code.py` and `send_report.py` the
recipient is the committer e-mail when truthy, else the sender address,
and a fully falsy resolution skips the send; in `send_email.py` the
recipient is solely the committer e-mail and a falsy one cancels the
send with a log message. -/
theorem claim6_amended :
    (∀ s p g smtp, s ≠ "" → p ≠ "" → g ≠ "" →
      AnalyzeCode.recipientOf
        (AnalyzeCode.send_email (some s) (some p) (some g) smtp) = some g) ∧
    (∀ s p ge smtp, s ≠ "" → p ≠ "" → pyFalsy ge = true →
      AnalyzeCode.recipientOf
        (AnalyzeCode.send_email (some s) (some p) ge smtp) = some s) ∧
    (∀ ge sender pw smtp, pyFalsy ge = true →
      SendEmailPy.send_email ge sender pw smtp
        = AnalyzeCode.EmailAction.skippedNoRecipient) ∧
    (∀ g sender pw smtp, g ≠ "" →
      AnalyzeCode.recipientOf (SendEmailPy.send_email (some g) sender pw smtp) = some g) := by
  refine ⟨?_, ?_, ?_, ?_⟩
  · intro s p g smtp hs hp hg
    cases hsm : smtp g <;>
      simp [AnalyzeCode.send_email, AnalyzeCode.sendEmailEnabled, pyTruthy, pyOr,
        hs, hp, hg, hsm, AnalyzeCode.recipientOf]
  · intro s p ge smtp hs hp hge
    cases ge with
    | none =>
      cases hsm : smtp s <;>
        simp [AnalyzeCode.send_email, AnalyzeCode.sendEmailEnabled, pyTruthy, pyOr,
          hs, hp, hsm, AnalyzeCode.recipientOf]
    | some g =>
      have hg : g = "" := by
        by_contra hgg
        simp [pyFalsy, pyTruthy, hgg] at hge
      subst hg
      cases hsm : smtp s <;>
        simp [AnalyzeCode.send_email, AnalyzeCode.sendEmailEnabled, pyTruthy, pyOr,
          hs, hp, hsm, AnalyzeCode.recipientOf]
  · intro ge sender pw smtp hge
    cases ge with
    | none => rfl
    | some g =>
      have hg : g = "" := by
        by_contra hgg
        simp [pyFalsy, pyTruthy, hgg] at hge
      subst hg
      rfl
  · intro g sender pw smtp hg
    cases hsm : smtp g <;>
      simp [SendEmailPy.send_email, hg, hsm, AnalyzeCode.recipientOf]

/-- Witness for the amended claim C6 at concrete inputs. -/
theorem claim6_witness :
    AnalyzeCode.recipientOf
        (AnalyzeCode.send_email (some ("s@x")) (some ("pw")) (some ("dev@x")) smtpOk)
      = some ("dev@x") ∧
    AnalyzeCode.recipientOf
        (AnalyzeCode.send_email (some ("s@x")) (some ("pw")) none smtpOk) = some ("s@x") ∧
    SendEmailPy.send_email (some ("")) ("s@x") ("pw") smtpOk
      = AnalyzeCode.EmailAction.skippedNoRecipient ∧
    AnalyzeCode.recipientOf (SendEmailPy.send_email (some ("dev@x")) ("s@x") ("pw") smtpOk)
      = some ("dev@x") :=
  ⟨claim6_amended.1 ("s@x") ("pw") ("dev@x") smtpOk (by decide) (by decide) (by decide),
   claim6_amended.2.1 ("s@x") ("pw") none smtpOk (by decide) (by decide) (by decide),
   claim6_amended.2.2.1 (some ("")) ("s@x") ("pw") smtpOk (by decide),
   claim6_amended.2.2.2 ("dev@x") ("s@x") ("pw") smtpOk (by decide)⟩

/-- Claim C9: a missing or unreadable persisted report never raises —
`read_analysis_report` returns a warning string naming the expected path
or the read error, and `main` feeds exactly that string to the narrative
generator as the report text. -/
theorem claim9_report_fallback :
    (∀ rr, AnalyzeCode.read_analysis_report false rr = AnalyzeCode.noReportWarning) ∧
    (∀ e, AnalyzeCode.read_analysis_report true (Except.error e)
      = AnalyzeCode.readErrWarning e) ∧
    (∀ env r, AnalyzeCode.main env = Except.ok r →
      (AnalyzeCode.ask_gemini_for_analysis env.apiKey env.api
        (AnalyzeCode.read_analysis_report env.reportExists env.reportRead)
        (AnalyzeCode.get_git_diff env.stagedDiff env.headDiff)
        (AnalyzeCode.get_changed_files env.changedRaw)).1 = Except.ok r.html) := by
  refine ⟨fun rr => rfl, fun e => rfl, ?_⟩
  intro env r h
  unfold AnalyzeCode.main at h
  rcases hx : AnalyzeCode.ask_gemini_for_analysis env.apiKey env.api
      (AnalyzeCode.read_analysis_report env.reportExists env.reportRead)
      (AnalyzeCode.get_git_diff env.stagedDiff env.headDiff)
      (AnalyzeCode.get_changed_files env.changedRaw) with ⟨res, att⟩
  rw [hx] at h
  cases res with
  | error s => simp at h
  | ok html =>
    simp only at h
    injection h with h2
    subst h2
    rfl

/-- Witness for claim C9 at concrete inputs. -/
theorem claim9_witness :
    AnalyzeCode.read_analysis_report false (Except.ok ("text"))
      = AnalyzeCode.noReportWarning ∧
    AnalyzeCode.read_analysis_report true (Except.error ("denied"))
      = AnalyzeCode.readErrWarning ("denied") ∧
    (AnalyzeCode.ask_gemini_for_analysis envW.apiKey envW.api
      (AnalyzeCode.read_analysis_report envW.reportExists envW.reportRead)
      (AnalyzeCode.get_git_diff envW.stagedDiff envW.headDiff)
      (AnalyzeCode.get_changed_files envW.changedRaw)).1 = Except.ok resW.html :=
  ⟨claim9_report_fallback.1 (Except.ok ("text")),
   claim9_report_fallback.2.1 ("denied"),
   claim9_report_fallback.2.2 envW resW rfl⟩

/-- Claim C10: with no command-line arguments the run status defaults to
`success` and the subject is the fixed validated subject; in every
terminating run the status and subject are determined solely by the first
command-line argument, independent of the analysis results gathered
during the run. -/
theorem claim10_status_from_argv :
    (∀ env r, env.argv = [] → AnalyzeCode.main env = Except.ok r →
      r.status = ("success") ∧ r.subject = AnalyzeCode.successSubject) ∧
    (∀ env r, AnalyzeCode.main env = Except.ok r →
      r.status = env.argv.head?.getD ("success") ∧
      r.subject = AnalyzeCode.subjectOfStatus (env.argv.head?.getD ("success"))) := by
  have key : ∀ env r, AnalyzeCode.main env = Except.ok r →
      r.status = env.argv.head?.getD ("success") ∧
      r.subject = AnalyzeCode.subjectOfStatus (env.argv.head?.getD ("success")) := by
    intro env r h
    unfold AnalyzeCode.main at h
    rcases hx : AnalyzeCode.ask_gemini_for_analysis env.apiKey env.api
        (AnalyzeCode.read_analysis_report env.reportExists env.reportRead)
        (AnalyzeCode.get_git_diff env.stagedDiff env.headDiff)
        (AnalyzeCode.get_changed_files env.changedRaw) with ⟨res, att⟩
    rw [hx] at h
    cases res with
    | error s => simp at h
    | ok html =>
      simp only at h
      injection h with h2
      subst h2
      exact ⟨rfl, rfl⟩
  refine ⟨?_, key⟩
  intro env r hargv h
  have k := key env r h
  rw [hargv] at k
  refine ⟨k.1, ?_⟩
  rw [k.2]
  rfl

/-- Witness for claim C10 at a concrete run with no arguments. -/
theorem claim10_witness :
    resW.status = ("success") ∧ resW.subject = AnalyzeCode.successSubject :=
  claim10_status_from_argv.1 envW resW rfl rfl

end SmartCV
